import Mathlib

/-!
Verification of the trend-engine scoring and ranking core
(src/trend_engine/processors/viral_score.py and the score/filter/sort step of
src/trend_engine/jobs/daily_pipeline.py) against its specification.

Modelling conventions:
* Python dict posts become the structure Post; an absent key is None.
* Python floats are modelled as exact rationals; the decimal literals of the
  source (0.4, 0.5, 0.3, 0.2, 7.5) become the corresponding rationals.
* Python round(x, 1) is modelled by round1 below, rounding half up on exact
  rationals; at every concrete input appearing in the spec this agrees with
  the value the program computes with binary floats (e.g. 7.45 rounds to 7.5,
  as the float sum lands slightly above the tie).
* A raised exception is modelled by the result none : Option Rat; a normal
  return by some.
* The content value of a post may be a string or Python None; str(x) and
  x.lower() are modelled by getContentStr and getContentLower below, with
  None.lower() modelled as a raise.
-/

/-- A Python value that can sit in the content field: a string or None. -/
inductive ContentVal where
  | str (s : String)
  | pynone
deriving DecidableEq

/-- Python str(v) for a content value. -/
def pyStr : ContentVal → String
  | ContentVal.str s => s
  | ContentVal.pynone => "None"

/-- Lower-casing a string, character by character (Python str.lower on the
ASCII text this engine sees). -/
def lowerStr (s : String) : String := ⟨s.data.map Char.toLower⟩

/-- Models str(post.get("content", "")) from the rank branch of
calculate_viral_score. -/
def getContentStr : Option ContentVal → String
  | none => ""
  | some v => pyStr v

/-- Models post.get("content", "").lower() from the velocity branch of
calculate_viral_score: an absent key degrades to the empty string, a string
is lower-cased, and Python None raises AttributeError (modelled by none). -/
def getContentLower : Option ContentVal → Option String
  | none => some ""
  | some (ContentVal.str s) => some (lowerStr s)
  | some ContentVal.pynone => none

/-- Does the first character list start the second one? -/
def startsWithL : List Char → List Char → Bool
  | [], _ => true
  | _ :: _, [] => false
  | a :: as, b :: bs => a == b && startsWithL as bs

/-- Python substring containment (needle in haystack) on character lists. -/
def containsSub (needle : List Char) : List Char → Bool
  | [] => needle.isEmpty
  | c :: t => startsWithL needle (c :: t) || containsSub needle t

/-- The fixed keyword list of calculate_viral_score. -/
def relatability_keywords : List String :=
  ["home", "family", "simple", "dinner", "kids", "husband", "wife", "tired",
   "cheap", "grocery"]

/-- sum(1 for word in relatability_keywords if word in content_lower). -/
def countKeywords (content_lower : String) : Nat :=
  relatability_keywords.countP (fun w => containsSub w.data content_lower.data)

/-- Python round(x, 1): scale by ten, round the scaled value to an integer,
scale back. -/
def round1 (x : Rat) : Rat := ((⌊x * 10 + 1 / 2⌋ : Int) : Rat) / 10

/-- The hours_since clamp of calculate_viral_score: values below 0.5 are
raised to 0.5. -/
def clampHours (h : Rat) : Rat := if h < 1 / 2 then 1 / 2 else h

/-- A post record; every field the scorer reads may be absent. -/
structure Post where
  views : Option Int := none
  likes : Option Int := none
  comments : Option Int := none
  hours_since : Option Rat := none
  rank : Option Int := none
  content : Option ContentVal := none

/-- Python truthiness of post.get("rank"): present and nonzero. -/
def rankTruthy : Option Int → Bool
  | none => false
  | some r => r != 0

/-- max(0, 10 - (rank * 0.4)) from the rank branch. -/
def rankScore (rank : Int) : Rat := max 0 (10 - (rank : Rat) * (2 / 5))

/-- The views value after the estimation heuristic: when views == 0 and
interactions > 0, views becomes interactions * 100. -/
def effectiveViews (post : Post) : Int :=
  let views := post.views.getD 0
  let interactions := post.likes.getD 0 + post.comments.getD 0
  if views = 0 ∧ 0 < interactions then interactions * 100 else views

/-- min(velocity / 100, 10) with velocity = views / hours_since. -/
def velocityScore (views : Int) (hours_since : Rat) : Rat :=
  min ((views : Rat) / hours_since / 100) 10

/-- min(engagement_rate * 100, 10) with engagement_rate = interactions / views. -/
def engagementScore (interactions views : Int) : Rat :=
  min ((interactions : Rat) / (views : Rat) * 100) 10

/-- min(matches * 2, 10) over the lower-cased content. -/
def relatabilityScore (content_lower : String) : Rat :=
  ((min (countKeywords content_lower * 2) 10 : Nat) : Rat)

/-- Shallow embedding of calculate_viral_score
(src/trend_engine/processors/viral_score.py). The result none models a
raised exception; every normal return is some. -/
def calculate_viral_score (post : Post) : Option Rat :=
  let hours_since := clampHours (post.hours_since.getD 1)
  let interactions := post.likes.getD 0 + post.comments.getD 0
  let views := effectiveViews post
  if views = 0 ∧ rankTruthy post.rank then
    let relatability_bonus := countKeywords (lowerStr (getContentStr post.content))
    some (round1 (rankScore (post.rank.getD 0) + ((min relatability_bonus 2 : Nat) : Rat)))
  else if views = 0 then
    some 0
  else
    (getContentLower post.content).map (fun content =>
      round1 (velocityScore views hours_since * (1 / 2) +
              engagementScore interactions views * (3 / 10) +
              relatabilityScore content * (1 / 5)))

/-- The configured filter threshold (src/trend_engine/config.py). -/
def VIRAL_THRESHOLD_SCORE : Rat := 15 / 2

/-- A post as seen by the filter step: the attached score is all the step
reads; pid stands for the rest of the record and gives posts an identity. -/
structure ScoredPost where
  pid : Nat
  viral_score : Rat
deriving DecidableEq

/-- The sort key order of viral_candidates.sort(key=..., reverse=True):
a comes no later than b when the score of a is at least the score of b. -/
def scoreGE (a b : ScoredPost) : Prop := b.viral_score ≤ a.viral_score

instance : DecidableRel scoreGE :=
  fun a b => inferInstanceAs (Decidable (b.viral_score ≤ a.viral_score))

instance : IsTotal ScoredPost scoreGE :=
  ⟨fun a b => le_total b.viral_score a.viral_score⟩

instance : IsTrans ScoredPost scoreGE :=
  ⟨fun _ _ _ h1 h2 => le_trans h2 h1⟩

/-- The score-filter-sort step of run_pipeline
(src/trend_engine/jobs/daily_pipeline.py): keep the posts whose score meets
the threshold, in order, then sort them stably by score descending
(Python list.sort is stable; the stable insertion sort models it). -/
def select_viral_candidates (posts : List ScoredPost) (T : Rat) : List ScoredPost :=
  List.insertionSort scoreGE (posts.filter (fun p => decide (T ≤ p.viral_score)))

/-- Builds a post from all six optional fields, in declaration order. -/
def mkPost (v l c : Option Int) (h : Option Rat) (r : Option Int) (ct : Option ContentVal) : Post :=
  ⟨v, l, c, h, r, ct⟩

/-- A zero-view post with five likes and rank 1: the view-estimation heuristic
fires before the rank test. -/
def postRankLikes : Post :=
  mkPost (some 0) (some 5) (some 0) none (some 1) (some (ContentVal.str ""))

/-- A velocity-path post with 1000 views and 100 likes after one hour. -/
def postViews1000 : Post :=
  mkPost (some 1000) (some 100) (some 0) (some 1) none (some (ContentVal.str ""))

/-- The same post as postViews1000 with views raised to 2000. -/
def postViews2000 : Post :=
  mkPost (some 2000) (some 100) (some 0) (some 1) none (some (ContentVal.str ""))

/-- A velocity-path post whose content field holds Python None. -/
def postNoneContent : Post :=
  mkPost (some 100) none none none none (some ContentVal.pynone)

/-- The concrete velocity-path scenario of the spec. -/
def postDinner : Post :=
  mkPost (some 10000) (some 500) (some 50) (some 2) none
    (some (ContentVal.str "easy dinner for tired parents"))

/-- The concrete rank-path scenario of the spec: rank 1, content "home". -/
def postRank1Home : Post :=
  mkPost (some 0) (some 0) (some 0) none (some 1) (some (ContentVal.str "home"))

/-- A small plain velocity-path post used to instantiate bounds. -/
def postViews100 : Post :=
  mkPost (some 100) none none none none (some (ContentVal.str ""))

/-- The three scored posts of the ranking-stability scenario. -/
def postA : ScoredPost := ⟨0, 8⟩

/-- Second post of the ranking-stability scenario, score 9. -/
def postB : ScoredPost := ⟨1, 9⟩

/-- Third post of the ranking-stability scenario, score 8 again. -/
def postC : ScoredPost := ⟨2, 8⟩

/-- Rounding half up at one decimal is monotone. -/
theorem round1_mono {x y : Rat} (h : x ≤ y) : round1 x ≤ round1 y := by
  unfold round1
  have hf : ⌊x * 10 + 1 / 2⌋ ≤ ⌊y * 10 + 1 / 2⌋ := Int.floor_le_floor (by linarith)
  have hf2 : ((⌊x * 10 + 1 / 2⌋ : Int) : Rat) ≤ ((⌊y * 10 + 1 / 2⌋ : Int) : Rat) := by
    exact_mod_cast hf
  exact (div_le_div_iff_of_pos_right (by norm_num)).mpr hf2

/-- Rounding cannot push a value at most ten above ten. -/
theorem round1_le_ten {x : Rat} (h : x ≤ 10) : round1 x ≤ 10 := by
  have h10 : round1 10 = 10 := by norm_num [round1]
  calc round1 x ≤ round1 10 := round1_mono h
  _ = 10 := h10

/-- Whenever the content field is absent or holds a string, the scorer
returns normally (never the exception value none). -/
theorem score_isSome_of_contentOk (post : Post)
    (hok : post.content = none ∨ ∃ s, post.content = some (ContentVal.str s)) :
    ∃ r : Rat, calculate_viral_score post = some r := by
  unfold calculate_viral_score
  by_cases h1 : effectiveViews post = 0 ∧ rankTruthy post.rank
  · rw [if_pos h1]; exact ⟨_, rfl⟩
  · rw [if_neg h1]
    by_cases h2 : effectiveViews post = 0
    · rw [if_pos h2]; exact ⟨0, rfl⟩
    · rw [if_neg h2]
      rcases hok with hc | ⟨s, hc⟩ <;> rw [hc] <;> exact ⟨_, rfl⟩

/-- Inserting an element into a list sorted by descending score, then keeping
only the entries of one given score, either prepends the element (when it has
that score) or leaves the selection unchanged. -/
theorem filter_orderedInsert_score (s : Rat) (x : ScoredPost) :
    ∀ l : List ScoredPost, l.Sorted scoreGE →
      ((l.orderedInsert scoreGE x).filter fun q => decide (q.viral_score = s)) =
        if x.viral_score = s then
          x :: (l.filter fun q => decide (q.viral_score = s))
        else l.filter fun q => decide (q.viral_score = s) := by
  intro l
  induction l with
  | nil =>
    intro _
    by_cases hx : x.viral_score = s <;> simp [List.orderedInsert, hx]
  | cons b t ih =>
    intro hs
    rw [List.orderedInsert]
    have hts : t.Sorted scoreGE := hs.of_cons
    by_cases hxb : scoreGE x b
    · rw [if_pos hxb]
      by_cases hx : x.viral_score = s <;> simp [hx, List.filter_cons]
    · rw [if_neg hxb]
      by_cases hx : x.viral_score = s
      · have hb : ¬ b.viral_score = s := by
          intro hbs
          exact absurd (le_of_eq (hbs.trans hx.symm)) hxb
        simp [List.filter_cons, hb, hx, ih hts]
      · simp [List.filter_cons, hx, ih hts]

/-- The stable descending sort keeps the posts of any one score in their
original relative order. -/
theorem filter_insertionSort_score (s : Rat) :
    ∀ l : List ScoredPost,
      ((l.insertionSort scoreGE).filter fun q => decide (q.viral_score = s)) =
        l.filter fun q => decide (q.viral_score = s) := by
  intro l
  induction l with
  | nil => rfl
  | cons b t ih =>
    rw [List.insertionSort,
      filter_orderedInsert_score s b _ (List.sorted_insertionSort scoreGE t)]
    by_cases hb : b.viral_score = s <;> simp [hb, ih, List.filter_cons]

/-- C1 (counterexample): the post with views 0, likes 5, rank 1 and empty
content has its views re-estimated to 500 by the interaction heuristic, so
calculate_viral_score takes the velocity path and returns 2.8, not the 9.6
the rank formula of the claim prescribes. -/
theorem C1_rank_path_counterexample :
    calculate_viral_score postRankLikes = some (14 / 5) ∧
    round1 (rankScore 1 +
      ((min (countKeywords (lowerStr (getContentStr postRankLikes.content))) 2 : Nat) : Rat)) = 48 / 5 ∧
    (14 / 5 : Rat) ≠ 48 / 5 := by
  refine ⟨?_, ?_, by norm_num⟩
  · have h1 : countKeywords (lowerStr "") = 0 := by decide
    norm_num [calculate_viral_score, postRankLikes, mkPost, effectiveViews, clampHours,
      rankTruthy, velocityScore, engagementScore, relatabilityScore, getContentLower,
      h1, round1, min_def]
  · have h1 : countKeywords (lowerStr (getContentStr postRankLikes.content)) = 0 := by decide
    norm_num [h1, rankScore, round1]

/-- C1 (amended): for every post whose views field is 0 or absent, whose
likes and comments are 0 (no interactions, so the view-estimation heuristic
stays silent), and whose rank field is set and nonzero, the scorer returns
round(max(0, 10 - rank * 0.4) + min(bonus, 2), 1), where bonus counts the
case-insensitive keyword hits in content, independently of hours_since. -/
theorem C1_rank_path_amended (v : Option Int) (r : Int) (c : Option ContentVal)
    (h : Option Rat) (hv : v = none ∨ v = some 0) (hr : r ≠ 0) :
    calculate_viral_score (mkPost v (some 0) (some 0) h (some r) c) =
      some (round1 (rankScore r +
        ((min (countKeywords (lowerStr (getContentStr c))) 2 : Nat) : Rat))) := by
  rcases hv with hv | hv <;> subst hv <;>
    simp [calculate_viral_score, mkPost, effectiveViews, rankTruthy, hr]

/-- C1 (witness): the amended rank-path formula instantiated at rank 1 with
content "home" and absent views. -/
theorem C1_rank_path_witness :
    calculate_viral_score (mkPost none (some 0) (some 0) none (some 1)
        (some (ContentVal.str "home"))) =
      some (round1 (rankScore 1 +
        ((min (countKeywords (lowerStr (getContentStr (some (ContentVal.str "home"))))) 2 : Nat) : Rat))) :=
  C1_rank_path_amended none 1 (some (ContentVal.str "home")) none (Or.inl rfl) (by decide)

/-- C2 (counterexample): raising views from 1000 to 2000 with likes 100,
comments 0, one hour of age and empty content fixed drops the final score
from 8.0 to 6.5, because the engagement rate halves while the velocity score
is already capped. -/
theorem C2_views_monotonicity_counterexample :
    calculate_viral_score postViews1000 = some 8 ∧
    calculate_viral_score postViews2000 = some (13 / 2) ∧
    (13 / 2 : Rat) < 8 := by
  have h1 : countKeywords (lowerStr "") = 0 := by decide
  refine ⟨?_, ?_, by norm_num⟩ <;>
    norm_num [calculate_viral_score, postViews1000, postViews2000, mkPost, effectiveViews,
      clampHours, rankTruthy, velocityScore, engagementScore, relatabilityScore,
      getContentLower, h1, round1, min_def]

/-- C2 (amended): with hours_since fixed (and clamped as the scorer clamps
it), increasing views never decreases velocity_score; the final score,
however, may decrease, because the engagement rate falls as views grow. -/
theorem C2_velocity_monotone (v1 v2 : Int) (h : Rat) (hv : v1 ≤ v2) :
    velocityScore v1 (clampHours h) ≤ velocityScore v2 (clampHours h) := by
  have hc : (0 : Rat) < clampHours h := by
    unfold clampHours
    by_cases hh : h < 1 / 2
    · rw [if_pos hh]; norm_num
    · rw [if_neg hh]; linarith [not_lt.mp hh]
  have hcast : (v1 : Rat) ≤ (v2 : Rat) := by exact_mod_cast hv
  unfold velocityScore
  gcongr

/-- C2 (witness): velocity monotonicity instantiated at views 100 and 200
with one hour of age. -/
theorem C2_velocity_monotone_witness :
    velocityScore 100 (clampHours 1) ≤ velocityScore 200 (clampHours 1) :=
  C2_velocity_monotone 100 200 1 (by decide)

/-- C3 (code bug): a post with positive views whose content field holds
Python None makes the velocity branch evaluate None.lower(), which raises
AttributeError (the exception value none of the model); the spec promises
the scorer never raises and degrades malformed content to a default, and the
rank branch indeed guards the same access with str(). -/
theorem C3_none_content_raises :
    calculate_viral_score postNoneContent = none := by
  simp [calculate_viral_score, postNoneContent, mkPost, effectiveViews, rankTruthy,
    getContentLower]

/-- C4 (confirmed): the filter-and-sort step returns a permutation of the
posts whose score meets the threshold, sorted by score descending, with the
posts of any one score kept in their original relative order, and the
concrete scenario A(8), B(9), C(8) at threshold 7.5 yields [B, A, C]. -/
theorem C4_filter_rank_contract (posts : List ScoredPost) (T : Rat) :
    List.Sorted scoreGE (select_viral_candidates posts T) ∧
    List.Perm (select_viral_candidates posts T)
      (posts.filter (fun p => decide (T ≤ p.viral_score))) ∧
    (∀ s : Rat,
      ((select_viral_candidates posts T).filter fun q => decide (q.viral_score = s)) =
        ((posts.filter fun p => decide (T ≤ p.viral_score)).filter
          fun q => decide (q.viral_score = s))) ∧
    select_viral_candidates [postA, postB, postC] VIRAL_THRESHOLD_SCORE =
      [postB, postA, postC] := by
  refine ⟨List.sorted_insertionSort scoreGE _, List.perm_insertionSort scoreGE _, ?_, ?_⟩
  · intro s
    exact filter_insertionSort_score s _
  · norm_num [select_viral_candidates, VIRAL_THRESHOLD_SCORE, postA, postB, postC,
      List.insertionSort, List.orderedInsert, scoreGE, List.filter]

/-- C5 (confirmed): the dinner post scores velocity 10, engagement 5.5,
relatability 4, and calculate_viral_score returns 7.5. -/
theorem C5_concrete_velocity_scenario :
    velocityScore 10000 (clampHours 2) = 10 ∧
    engagementScore 550 10000 = 11 / 2 ∧
    relatabilityScore (lowerStr "easy dinner for tired parents") = 4 ∧
    calculate_viral_score postDinner = some (15 / 2) := by
  have h1 : countKeywords (lowerStr "easy dinner for tired parents") = 2 := by decide
  refine ⟨?_, ?_, ?_, ?_⟩
  · norm_num [velocityScore, clampHours, min_def]
  · norm_num [engagementScore, min_def]
  · norm_num [relatabilityScore, h1, min_def]
  · norm_num [calculate_viral_score, postDinner, mkPost, effectiveViews, clampHours,
      rankTruthy, velocityScore, engagementScore, relatabilityScore, getContentLower,
      h1, round1, min_def]

/-- C6 (confirmed): the rank-1 post with content "home" scores 10.6, above
the nominal cap, while every velocity-path result (any post whose effective
views are nonzero) stays at most 10. -/
theorem C6_rank_overflow_quirk :
    calculate_viral_score postRank1Home = some (53 / 5) ∧
    (10 : Rat) < 53 / 5 ∧
    (∀ (post : Post) (r : Rat), effectiveViews post ≠ 0 →
      calculate_viral_score post = some r → r ≤ 10) := by
  refine ⟨?_, by norm_num, ?_⟩
  · have h1 : countKeywords (lowerStr "home") = 1 := by decide
    norm_num [calculate_viral_score, postRank1Home, mkPost, effectiveViews, clampHours,
      rankTruthy, rankScore, getContentStr, pyStr, h1, round1, min_def]
  · intro post r hv hs
    simp only [calculate_viral_score] at hs
    rw [if_neg (fun hcon => hv hcon.1), if_neg hv] at hs
    cases hc : getContentLower post.content with
    | none => rw [hc] at hs; simp at hs
    | some content =>
      rw [hc] at hs
      simp only [Option.map_some'] at hs
      have hr : r = round1
          (velocityScore (effectiveViews post) (clampHours (post.hours_since.getD 1)) * (1 / 2) +
           engagementScore (post.likes.getD 0 + post.comments.getD 0) (effectiveViews post) * (3 / 10) +
           relatabilityScore content * (1 / 5)) :=
        (Option.some.injEq _ _).mp hs.symm
      subst hr
      apply round1_le_ten
      have h1 : velocityScore (effectiveViews post)
          (clampHours (post.hours_since.getD 1)) ≤ 10 := min_le_right _ _
      have h2 : engagementScore (post.likes.getD 0 + post.comments.getD 0)
          (effectiveViews post) ≤ 10 := min_le_right _ _
      have h3 : relatabilityScore content ≤ 10 := by
        unfold relatabilityScore
        exact_mod_cast Nat.min_le_right _ 10
      linarith

/-- C6 (witness): the velocity-path bound applied to a concrete 100-view
post, whose score evaluates to 0.5. -/
theorem C6_rank_overflow_quirk_witness : (1 / 2 : Rat) ≤ 10 := by
  have h1 : countKeywords (lowerStr "") = 0 := by decide
  refine C6_rank_overflow_quirk.2.2 postViews100 (1 / 2) (by decide) ?_
  norm_num [calculate_viral_score, postViews100, mkPost, effectiveViews, clampHours,
    rankTruthy, velocityScore, engagementScore, relatabilityScore, getContentLower,
    h1, round1, min_def]

/-- C7 (confirmed): a post with zero views, likes and comments and no rank
scores 0, whatever its content and hours_since fields hold. -/
theorem C7_dead_post_zero (c : Option ContentVal) (h : Option Rat) :
    calculate_viral_score (mkPost (some 0) (some 0) (some 0) h none c) = some 0 := by
  simp [calculate_viral_score, mkPost, effectiveViews, rankTruthy]

/-- C8 (confirmed): an hours_since below 0.5 is scored exactly as 0.5 would
be; an absent hours_since is scored exactly as 1; and for any nonpositive
hours_since the scorer still returns normally whenever the content field is
absent or a string. -/
theorem C8_hours_clamp :
    (∀ (post : Post) (h : Rat), h < 1 / 2 →
      calculate_viral_score { post with hours_since := some h } =
        calculate_viral_score { post with hours_since := some (1 / 2) }) ∧
    (∀ post : Post,
      calculate_viral_score { post with hours_since := none } =
        calculate_viral_score { post with hours_since := some 1 }) ∧
    (∀ (post : Post) (h : Rat), h ≤ 0 →
      (post.content = none ∨ ∃ s, post.content = some (ContentVal.str s)) →
      ∃ r : Rat, calculate_viral_score { post with hours_since := some h } = some r) := by
  refine ⟨?_, ?_, ?_⟩
  · intro post h hh
    have e : clampHours h = clampHours (1 / 2) := by
      unfold clampHours
      rw [if_pos hh, if_neg (by norm_num)]
    simp only [calculate_viral_score, effectiveViews, Option.getD_some]
    rw [e]
  · intro post
    simp only [calculate_viral_score, effectiveViews, Option.getD_some, Option.getD_none]
  · intro post h _ hok
    exact score_isSome_of_contentOk _ hok

/-- C8 (witness): the clamp equivalence applied at hours_since 0 on a
concrete 100-view post. -/
theorem C8_hours_clamp_witness :
    calculate_viral_score { postViews100 with hours_since := some 0 } =
      calculate_viral_score { postViews100 with hours_since := some (1 / 2) } :=
  C8_hours_clamp.1 postViews100 0 (by norm_num)

/-- C9 (confirmed): two content strings with the same lower-casing receive
identical final scores on any post, "homey" matches the keyword "home" as a
substring, and "HOME cooking" and "home cooking" have the same keyword
count. -/
theorem C9_keyword_matching :
    (∀ (post : Post) (s t : String), lowerStr s = lowerStr t →
      calculate_viral_score { post with content := some (ContentVal.str s) } =
        calculate_viral_score { post with content := some (ContentVal.str t) }) ∧
    countKeywords (lowerStr "homey") = 1 ∧
    countKeywords (lowerStr "HOME cooking") = countKeywords (lowerStr "home cooking") := by
  refine ⟨?_, by decide, by decide⟩
  intro post s t hst
  simp only [calculate_viral_score, effectiveViews, getContentStr, pyStr, getContentLower]
  rw [hst]

/-- C9 (witness): the case-insensitivity equivalence applied to the contents
"HOME cooking" and "home cooking" on a concrete 100-view post. -/
theorem C9_keyword_matching_witness :
    calculate_viral_score { postViews100 with content := some (ContentVal.str "HOME cooking") } =
      calculate_viral_score { postViews100 with content := some (ContentVal.str "home cooking") } :=
  C9_keyword_matching.1 postViews100 "HOME cooking" "home cooking" (by decide)

/-- C10 (confirmed): a rank field equal to 0 is falsy, so a dead post with
rank 0 scores 0 instead of the value round(10 + bonus, 1) the rank formula
would give, rankScore 0 being 10. -/
theorem C10_rank_zero_falsy :
    (∀ (c : Option ContentVal) (h : Option Rat),
      calculate_viral_score (mkPost (some 0) (some 0) (some 0) h (some 0) c) = some 0) ∧
    rankScore 0 = 10 := by
  constructor
  · intro c h
    simp [calculate_viral_score, mkPost, effectiveViews, rankTruthy]
  · norm_num [rankScore]
